import Mathlib

/-!
Verification development for the tahoebtc repository: a shallow embedding of
the Strike API proxy route (src/app/api/strike/[...path]/route.ts) and of the
client-side widgets (Bitcoin chart widget, Ikon Pass calculator) from the main
page component, together with theorems settling the specification's claims.
-/

namespace TahoeBtc

/-! ## Proxy route embedding

The route handlers GET/POST/PATCH/DELETE from route.ts.  The environment
credential `process.env.STRIKE_API_KEY` is an `Option String` (JS `undefined`
or a string; the code's `!apiKey` check is also true for the empty string).
The outbound `fetch` and the fallible JSON parses are modelled as `Except`
parameters: the fixed upstream behaviour is passed in, and `.error` stands for
a thrown exception, which the handler's try/catch maps to a generic 500.
Response bodies are a small inductive mirroring the four body shapes the
handlers construct.  Each handler returns its response together with the
outbound request it issued, `none` when no outbound call was made.
-/

def STRIKE_API_BASE : String := "https://api.strike.me/v1"

/-- JS truthiness of `process.env.STRIKE_API_KEY`: `!apiKey` holds when the
variable is unset or the empty string. -/
def apiKeyMissing : Option String → Bool
  | none => true
  | some s => s = ""

structure InboundRequest where
  pathSegments : List String
  queryString : String
  deriving DecidableEq

inductive HttpMethod
  | GET
  | POST
  | PATCH
  | DELETE
  deriving DecidableEq

/-- The outbound request the handler issues with `fetch`: URL, method, the
`Authorization` header, the `Content-Type` header, and an optional JSON body. -/
structure OutboundRequest where
  url : String
  method : HttpMethod
  authHeader : String
  contentType : String
  body : Option String
  deriving DecidableEq

deriving instance DecidableEq for Except

/-- The upstream `fetch` response as the handlers consume it: `ok`, `status`,
the `content-type` header, `text()`, and `json()` (which can throw). -/
structure UpstreamResponse where
  ok : Bool
  status : Nat
  contentType : Option String
  textBody : String
  jsonBody : Except Unit String
  deriving DecidableEq

/-- The four JSON body shapes the route constructs: an object with a single
`error` field, the upstream-failure envelope with `error`/`status`/`message`
fields, a relayed JSON document, and the fixed success object with a single
`success: true` field. -/
inductive ResponseBody
  | errorObj (error : String)
  | errorStatusMsg (error : String) (status : Nat) (message : String)
  | jsonData (data : String)
  | successTrue
  deriving DecidableEq

structure ProxyResponse where
  status : Nat
  body : ResponseBody
  deriving DecidableEq

def notConfiguredResponse : ProxyResponse :=
  { status := 500, body := .errorObj "Strike API key not configured" }

def commFailureResponse : ProxyResponse :=
  { status := 500, body := .errorObj "Failed to communicate with Strike API" }

/-- `resolvedParams.path.join('/')`. -/
def joinPath (segs : List String) : String := String.intercalate "/" segs

/-- GET handler URL: `STRIKE_API_BASE/path` plus `?query` when the serialized
search params are non-empty. -/
def getUrl (req : InboundRequest) : String :=
  STRIKE_API_BASE ++ "/" ++ joinPath req.pathSegments ++
    (if req.queryString = "" then "" else "?" ++ req.queryString)

/-- POST/PATCH/DELETE handler URL: `STRIKE_API_BASE/path`, no query string. -/
def bodyUrl (req : InboundRequest) : String :=
  STRIKE_API_BASE ++ "/" ++ joinPath req.pathSegments

def upstreamFailureResponse (resp : UpstreamResponse) : ProxyResponse :=
  { status := resp.status
    body := .errorStatusMsg "Strike API request failed" resp.status resp.textBody }

/-- The GET handler of route.ts. -/
def handleGET (apiKey : Option String) (req : InboundRequest)
    (upstream : Except Unit UpstreamResponse) :
    ProxyResponse × Option OutboundRequest :=
  if apiKeyMissing apiKey then (notConfiguredResponse, none)
  else
    let key := apiKey.getD ""
    let out : OutboundRequest :=
      { url := getUrl req, method := .GET, authHeader := "Bearer " ++ key
        contentType := "application/json", body := none }
    match upstream with
    | .error _ => (commFailureResponse, some out)
    | .ok resp =>
      if resp.ok then
        match resp.jsonBody with
        | .error _ => (commFailureResponse, some out)
        | .ok d => ({ status := 200, body := .jsonData d }, some out)
      else (upstreamFailureResponse resp, some out)

/-- The POST handler of route.ts; `inBody` is the result of `request.json()`,
which can throw (caught by the handler's try/catch before any outbound call). -/
def handlePOST (apiKey : Option String) (req : InboundRequest)
    (inBody : Except Unit String) (upstream : Except Unit UpstreamResponse) :
    ProxyResponse × Option OutboundRequest :=
  if apiKeyMissing apiKey then (notConfiguredResponse, none)
  else
    match inBody with
    | .error _ => (commFailureResponse, none)
    | .ok b =>
      let key := apiKey.getD ""
      let out : OutboundRequest :=
        { url := bodyUrl req, method := .POST, authHeader := "Bearer " ++ key
          contentType := "application/json", body := some b }
      match upstream with
      | .error _ => (commFailureResponse, some out)
      | .ok resp =>
        if resp.ok then
          match resp.jsonBody with
          | .error _ => (commFailureResponse, some out)
          | .ok d => ({ status := 200, body := .jsonData d }, some out)
        else (upstreamFailureResponse resp, some out)

/-- The PATCH handler of route.ts; identical to POST apart from the method. -/
def handlePATCH (apiKey : Option String) (req : InboundRequest)
    (inBody : Except Unit String) (upstream : Except Unit UpstreamResponse) :
    ProxyResponse × Option OutboundRequest :=
  if apiKeyMissing apiKey then (notConfiguredResponse, none)
  else
    match inBody with
    | .error _ => (commFailureResponse, none)
    | .ok b =>
      let key := apiKey.getD ""
      let out : OutboundRequest :=
        { url := bodyUrl req, method := .PATCH, authHeader := "Bearer " ++ key
          contentType := "application/json", body := some b }
      match upstream with
      | .error _ => (commFailureResponse, some out)
      | .ok resp =>
        if resp.ok then
          match resp.jsonBody with
          | .error _ => (commFailureResponse, some out)
          | .ok d => ({ status := 200, body := .jsonData d }, some out)
        else (upstreamFailureResponse resp, some out)

/-- `contentType && contentType.includes('application/json')`. -/
def hasJsonContentType : Option String → Bool
  | none => false
  | some ct => decide (("application/json".toList) <:+: ct.toList)

/-- The DELETE handler of route.ts: on a successful upstream response it relays
JSON only when the content type includes `application/json`, and otherwise
answers with the fixed success body. -/
def handleDELETE (apiKey : Option String) (req : InboundRequest)
    (upstream : Except Unit UpstreamResponse) :
    ProxyResponse × Option OutboundRequest :=
  if apiKeyMissing apiKey then (notConfiguredResponse, none)
  else
    let key := apiKey.getD ""
    let out : OutboundRequest :=
      { url := bodyUrl req, method := .DELETE, authHeader := "Bearer " ++ key
        contentType := "application/json", body := none }
    match upstream with
    | .error _ => (commFailureResponse, some out)
    | .ok resp =>
      if resp.ok then
        if hasJsonContentType resp.contentType then
          match resp.jsonBody with
          | .error _ => (commFailureResponse, some out)
          | .ok d => ({ status := 200, body := .jsonData d }, some out)
        else ({ status := 200, body := .successTrue }, some out)
      else (upstreamFailureResponse resp, some out)

/-- Spec-side predicate: the body is an error object whose message contains the
substring "not configured". -/
def bodyMentionsNotConfigured : ResponseBody → Prop
  | .errorObj e => ("not configured".toList) <:+: e.toList
  | _ => False

/-! ## Bitcoin chart widget embedding

The `BitcoinChartWidget` component: its `calculateChange` pure function, the
change-display header, the zero-range guard of the SVG vertical mapping, the
fallback mock series built in the fetch `catch` handler, and the three-way
render dispatch of the chart area (spinner / error-with-retry / chart).
Prices are rationals; JS `Math.random()` draws are abstract rational inputs.
-/

structure PricePoint where
  timestamp : ℤ
  price : ℚ
  deriving DecidableEq

/-- `calculateChange` from the widget: on fewer than two samples it returns
zero amount and zero percentage; otherwise `amount = last - first` and
`percentage = (amount / first) * 100`. -/
def calculateChange (chartData : List PricePoint) : ℚ × ℚ :=
  if chartData.length < 2 then (0, 0)
  else
    let first := ((chartData.head?).getD ⟨0, 0⟩).price
    let last := ((chartData.getLast?).getD ⟨0, 0⟩).price
    let amount := last - first
    (amount, amount / first * 100)

/-- JS `Number.toFixed(2)` as a rounding of the rational value to two decimal
places. -/
def round2 (x : ℚ) : ℚ := (round (x * 100) : ℤ) / 100

/-- The sign prefix of the change display: `isPositive ? '+' : ''` with
`isPositive = change.amount >= 0`. -/
def signIndicator (amount : ℚ) : String := if 0 ≤ amount then "+" else ""

/-- The change-display header: the sign prefix (driven by the amount) and the
percentage rendered with `toFixed(2)`. -/
def displayedChange (chartData : List PricePoint) : String × ℚ :=
  let change := calculateChange chartData
  (signIndicator change.1, round2 change.2)

def chartWidth : ℚ := 400

def chartHeight : ℚ := 120

def chartPadding : ℚ := 10

/-- `Math.min(...prices)` over the non-empty price list. -/
def minPrice : List ℚ → ℚ
  | [] => 0
  | p :: ps => ps.foldl min p

/-- `Math.max(...prices)` over the non-empty price list. -/
def maxPrice : List ℚ → ℚ
  | [] => 0
  | p :: ps => ps.foldl max p

/-- `const priceRange = maxPrice - minPrice || 1`: the zero-range guard of
`createPath`/`createGradient`. -/
def priceRange (prices : List ℚ) : ℚ :=
  if maxPrice prices - minPrice prices = 0 then 1 else maxPrice prices - minPrice prices

/-- The vertical mapping of one sample inside `createPath`/`createGradient`:
`y = height - padding - ((price - minPrice) / priceRange) * (height - 2 * padding)`. -/
def yCoord (minP range price : ℚ) : ℚ :=
  chartHeight - chartPadding - ((price - minP) / range) * (chartHeight - 2 * chartPadding)

/-- The y-coordinates `createPath` computes for the series (empty for an empty
series, matching the early return of the empty path). -/
def pathYCoords (chartData : List PricePoint) : List ℚ :=
  if chartData.length = 0 then []
  else
    let prices := chartData.map PricePoint.price
    chartData.map fun p => yCoord (minPrice prices) (priceRange prices) p.price

/-- The fallback mock series built in the fetch `catch` handler:
`Array.from(\x7b length: 20 \x7d, (_, i) => ...)` with
`timestamp = Date.now() - (19 - i) * 24 * 60 * 60 * 1000` and
`price = 70000 + Math.random() * 10000 - 5000`. -/
def mockData (now : ℤ) (randoms : Fin 20 → ℚ) : List PricePoint :=
  (List.finRange 20).map fun (i : Fin 20) =>
    { timestamp := now - (19 - (i.val : ℤ)) * 24 * 60 * 60 * 1000
      price := 70000 + randoms i * 10000 - 5000 }

/-- The widget state relevant to the chart area: `loading`, `error`, `chartData`. -/
structure ChartState where
  loading : Bool
  error : Option String
  chartData : List PricePoint

/-- The state after a failed fetch: the `catch` handler sets the error flag and
substitutes the mock series, and `setLoading(false)` runs afterwards. -/
def fetchFailureState (now : ℤ) (randoms : Fin 20 → ℚ) : ChartState :=
  { loading := false
    error := some "Failed to load chart data"
    chartData := mockData now randoms }

/-- The three branches of the chart area markup. -/
inductive ChartView
  | spinner
  | errorRetry
  | chart (data : List PricePoint)

/-- The chart-area render dispatch: `loading ? spinner : error ? errorRetry :
chart(chartData)`. -/
def renderChart (st : ChartState) : ChartView :=
  if st.loading then .spinner
  else if st.error.isSome then .errorRetry
  else .chart st.chartData

/-! ## Ikon Pass calculator embedding

`IkonPassCalculator`: the two fixed year-keyed tables and `calculateWhatIf`.
The year keys are the seven string keys of the tables, embedded as an inductive
so every lookup is total, as TypeScript's `keyof typeof ikonPrices` makes it.
The current BTC price is `btcPrice || 70000`: `null` (fetch not yet resolved)
or a zero price falls back to 70000.
-/

inductive IkonYear
  | y2018
  | y2019
  | y2020
  | y2021
  | y2022
  | y2023
  | y2024
  deriving DecidableEq

/-- The hardcoded Ikon Pass price table. -/
def ikonPrices : IkonYear → ℚ
  | .y2018 => 999
  | .y2019 => 999
  | .y2020 => 1049
  | .y2021 => 1149
  | .y2022 => 1169
  | .y2023 => 1159
  | .y2024 => 1429

/-- The hardcoded historical BTC price table (roughly Nov 1st each year). -/
def btcHistoricalPrices : IkonYear → ℚ
  | .y2018 => 6347
  | .y2019 => 9150
  | .y2020 => 13780
  | .y2021 => 61350
  | .y2022 => 20550
  | .y2023 => 34500
  | .y2024 => 69500

/-- `btcPrice || 70000` with `btcPrice : number | null`. -/
def currentBtcPriceOf : Option ℚ → ℚ
  | none => 70000
  | some v => if v = 0 then 70000 else v

structure WhatIfResult where
  passPrice : ℚ
  btcAmount : ℚ
  currentValue : ℚ
  gainLoss : ℚ
  gainLossPercent : ℚ
  historicalBtcPrice : ℚ
  deriving DecidableEq

/-- `calculateWhatIf` from the calculator component. -/
def calculateWhatIf (selectedYear : IkonYear) (btcPrice : Option ℚ) : WhatIfResult :=
  let passPrice := ikonPrices selectedYear
  let historicalBtcPrice := btcHistoricalPrices selectedYear
  let currentBtcPrice := currentBtcPriceOf btcPrice
  let btcAmount := passPrice / historicalBtcPrice
  let currentValue := btcAmount * currentBtcPrice
  let gainLoss := currentValue - passPrice
  let gainLossPercent := (currentValue - passPrice) / passPrice * 100
  { passPrice := passPrice
    btcAmount := btcAmount
    currentValue := currentValue
    gainLoss := gainLoss
    gainLossPercent := gainLossPercent
    historicalBtcPrice := historicalBtcPrice }

/-! ## Claims -/

/-- C1: for every inbound request to the proxy route with any of the four
methods, if the STRIKE_API_KEY credential is absent from the environment, the
handler returns status 500 with an error body containing "not configured" and
performs no outbound fetch call. -/
theorem missing_key_gives_500_and_no_fetch
    (apiKey : Option String) (h : apiKeyMissing apiKey = true)
    (req : InboundRequest) (inBody : Except Unit String)
    (upstream : Except Unit UpstreamResponse) :
    handleGET apiKey req upstream = (notConfiguredResponse, none) ∧
    handlePOST apiKey req inBody upstream = (notConfiguredResponse, none) ∧
    handlePATCH apiKey req inBody upstream = (notConfiguredResponse, none) ∧
    handleDELETE apiKey req upstream = (notConfiguredResponse, none) ∧
    notConfiguredResponse.status = 500 ∧
    bodyMentionsNotConfigured notConfiguredResponse.body := by
  refine ⟨?_, ?_, ?_, ?_, rfl, ?_⟩
  · simp [handleGET, h]
  · simp [handlePOST, h]
  · simp [handlePATCH, h]
  · simp [handleDELETE, h]
  · show ("not configured".toList) <:+: ("Strike API key not configured".toList)
    decide

theorem missing_key_gives_500_and_no_fetch_witness :
    handleGET none ⟨["foo"], "x=1"⟩ (.error ()) = (notConfiguredResponse, none) ∧
    handlePOST none ⟨["foo"], "x=1"⟩ (.ok "b") (.error ()) = (notConfiguredResponse, none) ∧
    handlePATCH none ⟨["foo"], "x=1"⟩ (.ok "b") (.error ()) = (notConfiguredResponse, none) ∧
    handleDELETE none ⟨["foo"], "x=1"⟩ (.error ()) = (notConfiguredResponse, none) ∧
    notConfiguredResponse.status = 500 ∧
    bodyMentionsNotConfigured notConfiguredResponse.body :=
  missing_key_gives_500_and_no_fetch none rfl ⟨["foo"], "x=1"⟩ (.ok "b") (.error ())

/-- C6: for every proxy request of any of the four methods with the credential
configured, if the outbound call or any later step throws — the fetch itself,
the parse of the upstream JSON body (for GET/POST/PATCH, and for DELETE when
the ok response carries an application/json content type), or (for POST/PATCH)
the parse of the inbound JSON body — the handler returns a 500 response with
the generic body "Failed to communicate with Strike API"; the handlers are
total, so no exception escapes as an unhandled crash. -/
theorem throwing_steps_give_generic_500
    (apiKey : Option String) (h : apiKeyMissing apiKey = false)
    (req : InboundRequest) (b : String) (resp respJ : UpstreamResponse)
    (hok : resp.ok = true) (hjson : resp.jsonBody = .error ())
    (hokJ : respJ.ok = true) (hctJ : hasJsonContentType respJ.contentType = true)
    (hjsonJ : respJ.jsonBody = .error ()) :
    (handleGET apiKey req (.error ())).fst = commFailureResponse ∧
    (handlePOST apiKey req (.ok b) (.error ())).fst = commFailureResponse ∧
    (handlePATCH apiKey req (.ok b) (.error ())).fst = commFailureResponse ∧
    (handleDELETE apiKey req (.error ())).fst = commFailureResponse ∧
    (handlePOST apiKey req (.error ()) (.ok resp)).fst = commFailureResponse ∧
    (handlePATCH apiKey req (.error ()) (.ok resp)).fst = commFailureResponse ∧
    (handleGET apiKey req (.ok resp)).fst = commFailureResponse ∧
    (handlePOST apiKey req (.ok b) (.ok resp)).fst = commFailureResponse ∧
    (handlePATCH apiKey req (.ok b) (.ok resp)).fst = commFailureResponse ∧
    (handleDELETE apiKey req (.ok respJ)).fst = commFailureResponse ∧
    commFailureResponse.status = 500 ∧
    commFailureResponse.body = .errorObj "Failed to communicate with Strike API" := by
  refine ⟨?_, ?_, ?_, ?_, ?_, ?_, ?_, ?_, ?_, ?_, rfl, rfl⟩ <;>
    simp [handleGET, handlePOST, handlePATCH, handleDELETE, h, hok, hjson, hokJ, hctJ, hjsonJ]

theorem throwing_steps_give_generic_500_witness :
    (handleGET (some "k") ⟨["foo"], ""⟩ (.error ())).fst = commFailureResponse ∧
    (handlePOST (some "k") ⟨["foo"], ""⟩ (.ok "b") (.error ())).fst = commFailureResponse ∧
    (handlePATCH (some "k") ⟨["foo"], ""⟩ (.ok "b") (.error ())).fst = commFailureResponse ∧
    (handleDELETE (some "k") ⟨["foo"], ""⟩ (.error ())).fst = commFailureResponse ∧
    (handlePOST (some "k") ⟨["foo"], ""⟩ (.error ())
      (.ok ⟨true, 200, none, "", .error ()⟩)).fst = commFailureResponse ∧
    (handlePATCH (some "k") ⟨["foo"], ""⟩ (.error ())
      (.ok ⟨true, 200, none, "", .error ()⟩)).fst = commFailureResponse ∧
    (handleGET (some "k") ⟨["foo"], ""⟩
      (.ok ⟨true, 200, none, "", .error ()⟩)).fst = commFailureResponse ∧
    (handlePOST (some "k") ⟨["foo"], ""⟩ (.ok "b")
      (.ok ⟨true, 200, none, "", .error ()⟩)).fst = commFailureResponse ∧
    (handlePATCH (some "k") ⟨["foo"], ""⟩ (.ok "b")
      (.ok ⟨true, 200, none, "", .error ()⟩)).fst = commFailureResponse ∧
    (handleDELETE (some "k") ⟨["foo"], ""⟩
      (.ok ⟨true, 200, some "application/json", "", .error ()⟩)).fst = commFailureResponse ∧
    commFailureResponse.status = 500 ∧
    commFailureResponse.body = .errorObj "Failed to communicate with Strike API" :=
  throwing_steps_give_generic_500 (some "k") (by decide) ⟨["foo"], ""⟩ "b"
    ⟨true, 200, none, "", .error ()⟩
    ⟨true, 200, some "application/json", "", .error ()⟩ rfl rfl rfl (by decide) rfl

/-- C5 counterexample: a DELETE whose upstream response lacks a JSON content
type does not always yield the fixed success body: a failed upstream response
(ok = false, status 404, content type text/plain) is relayed as the
upstream-failure envelope, not as the success object. -/
theorem delete_nonjson_failure_not_success :
    (handleDELETE (some "k") ⟨["foo"], ""⟩
        (.ok ⟨false, 404, some "text/plain", "nope", .ok "x"⟩)).fst =
      ⟨404, .errorStatusMsg "Strike API request failed" 404 "nope"⟩ ∧
    (handleDELETE (some "k") ⟨["foo"], ""⟩
        (.ok ⟨false, 404, some "text/plain", "nope", .ok "x"⟩)).fst.body ≠
      ResponseBody.successTrue := by
  constructor
  · rfl
  · decide

/-- C5 amended: for every DELETE request through the proxy where the upstream
response is successful (ok) and lacks an application/json content type, the
proxy responds with exactly the body with success true, regardless of the
upstream body content. -/
theorem delete_ok_nonjson_gives_success
    (apiKey : Option String) (h : apiKeyMissing apiKey = false)
    (req : InboundRequest) (resp : UpstreamResponse)
    (hok : resp.ok = true) (hct : hasJsonContentType resp.contentType = false) :
    (handleDELETE apiKey req (.ok resp)).fst = ⟨200, .successTrue⟩ := by
  simp [handleDELETE, h, hok, hct]

theorem delete_ok_nonjson_gives_success_witness :
    (handleDELETE (some "k") ⟨["foo"], ""⟩
        (.ok ⟨true, 204, some "text/plain", "arbitrary body", .ok "x"⟩)).fst =
      ⟨200, .successTrue⟩ :=
  delete_ok_nonjson_gives_success (some "k") (by decide) ⟨["foo"], ""⟩
    ⟨true, 204, some "text/plain", "arbitrary body", .ok "x"⟩ rfl (by decide)

/-- C7 counterexample: the upstream URL is not built from base, path and query
string for all four methods: a POST with a non-empty inbound query string
issues its outbound request to base/path with the query string dropped. -/
theorem post_drops_query_string :
    ((handlePOST (some "k") ⟨["foo"], "x=1"⟩ (.ok "b")
        (.ok ⟨true, 200, some "application/json", "", .ok "d"⟩)).snd.map
      OutboundRequest.url) = some "https://api.strike.me/v1/foo" ∧
    "https://api.strike.me/v1/foo" ≠ "https://api.strike.me/v1/foo?x=1" := by
  constructor
  · rfl
  · decide

/-- With the credential configured, the GET handler always issues exactly one
outbound request, with the query-carrying URL and the bearer header. -/
lemma handleGET_snd (apiKey : Option String) (h : apiKeyMissing apiKey = false)
    (req : InboundRequest) (upstream : Except Unit UpstreamResponse) :
    (handleGET apiKey req upstream).snd =
      some { url := getUrl req, method := .GET
             authHeader := "Bearer " ++ apiKey.getD ""
             contentType := "application/json", body := none } := by
  obtain _ | resp := upstream <;> simp [handleGET, h]
  rcases hok : resp.ok with _ | _ <;> simp [hok]
  rcases hj : resp.jsonBody with _ | _ <;> simp [hj]

/-- With the credential configured and a parseable inbound body, the POST
handler always issues exactly one outbound request, with the query-free URL. -/
lemma handlePOST_snd (apiKey : Option String) (h : apiKeyMissing apiKey = false)
    (req : InboundRequest) (b : String) (upstream : Except Unit UpstreamResponse) :
    (handlePOST apiKey req (.ok b) upstream).snd =
      some { url := bodyUrl req, method := .POST
             authHeader := "Bearer " ++ apiKey.getD ""
             contentType := "application/json", body := some b } := by
  obtain _ | resp := upstream <;> simp [handlePOST, h]
  rcases hok : resp.ok with _ | _ <;> simp [hok]
  rcases hj : resp.jsonBody with _ | _ <;> simp [hj]

/-- With the credential configured and a parseable inbound body, the PATCH
handler always issues exactly one outbound request, with the query-free URL. -/
lemma handlePATCH_snd (apiKey : Option String) (h : apiKeyMissing apiKey = false)
    (req : InboundRequest) (b : String) (upstream : Except Unit UpstreamResponse) :
    (handlePATCH apiKey req (.ok b) upstream).snd =
      some { url := bodyUrl req, method := .PATCH
             authHeader := "Bearer " ++ apiKey.getD ""
             contentType := "application/json", body := some b } := by
  obtain _ | resp := upstream <;> simp [handlePATCH, h]
  rcases hok : resp.ok with _ | _ <;> simp [hok]
  rcases hj : resp.jsonBody with _ | _ <;> simp [hj]

/-- With the credential configured, the DELETE handler always issues exactly
one outbound request, with the query-free URL. -/
lemma handleDELETE_snd (apiKey : Option String) (h : apiKeyMissing apiKey = false)
    (req : InboundRequest) (upstream : Except Unit UpstreamResponse) :
    (handleDELETE apiKey req upstream).snd =
      some { url := bodyUrl req, method := .DELETE
             authHeader := "Bearer " ++ apiKey.getD ""
             contentType := "application/json", body := none } := by
  obtain _ | resp := upstream <;> simp [handleDELETE, h]
  rcases hok : resp.ok with _ | _ <;> simp [hok]
  rcases hct : hasJsonContentType resp.contentType with _ | _ <;> simp [hct]
  rcases hj : resp.jsonBody with _ | _ <;> simp [hj]

/-- C7 amended: the GET handler builds the upstream URL from the fixed base,
the inbound path suffix and the inbound query string (prefixed by a question
mark when non-empty); the POST, PATCH and DELETE handlers build it from the
base and the path suffix only, dropping the query string. -/
theorem upstream_url_construction
    (apiKey : Option String) (h : apiKeyMissing apiKey = false)
    (req : InboundRequest) (b : String)
    (upstream : Except Unit UpstreamResponse) :
    ((handleGET apiKey req upstream).snd.map OutboundRequest.url) =
      some (STRIKE_API_BASE ++ "/" ++ joinPath req.pathSegments ++
        (if req.queryString = "" then "" else "?" ++ req.queryString)) ∧
    ((handlePOST apiKey req (.ok b) upstream).snd.map OutboundRequest.url) =
      some (STRIKE_API_BASE ++ "/" ++ joinPath req.pathSegments) ∧
    ((handlePATCH apiKey req (.ok b) upstream).snd.map OutboundRequest.url) =
      some (STRIKE_API_BASE ++ "/" ++ joinPath req.pathSegments) ∧
    ((handleDELETE apiKey req upstream).snd.map OutboundRequest.url) =
      some (STRIKE_API_BASE ++ "/" ++ joinPath req.pathSegments) := by
  rw [handleGET_snd apiKey h req upstream, handlePOST_snd apiKey h req b upstream,
    handlePATCH_snd apiKey h req b upstream, handleDELETE_snd apiKey h req upstream]
  exact ⟨rfl, rfl, rfl, rfl⟩

theorem upstream_url_construction_witness :
    ((handleGET (some "k") ⟨["foo"], "x=1"⟩ (.error ())).snd.map OutboundRequest.url) =
      some (STRIKE_API_BASE ++ "/" ++ joinPath ["foo"] ++
        (if "x=1" = "" then "" else "?" ++ "x=1")) ∧
    ((handlePOST (some "k") ⟨["foo"], "x=1"⟩ (.ok "b") (.error ())).snd.map
      OutboundRequest.url) = some (STRIKE_API_BASE ++ "/" ++ joinPath ["foo"]) ∧
    ((handlePATCH (some "k") ⟨["foo"], "x=1"⟩ (.ok "b") (.error ())).snd.map
      OutboundRequest.url) = some (STRIKE_API_BASE ++ "/" ++ joinPath ["foo"]) ∧
    ((handleDELETE (some "k") ⟨["foo"], "x=1"⟩ (.error ())).snd.map
      OutboundRequest.url) = some (STRIKE_API_BASE ++ "/" ++ joinPath ["foo"]) :=
  upstream_url_construction (some "k") (by decide) ⟨["foo"], "x=1"⟩ "b" (.error ())

/-- The key-independent relay outcome of the GET/POST/PATCH success path. -/
def relayResult (upstream : Except Unit UpstreamResponse) : ProxyResponse :=
  match upstream with
  | .error _ => commFailureResponse
  | .ok resp =>
    if resp.ok then
      match resp.jsonBody with
      | .error _ => commFailureResponse
      | .ok d => ⟨200, .jsonData d⟩
    else upstreamFailureResponse resp

/-- The key-independent relay outcome of the DELETE success path, with the
content-type translation. -/
def deleteRelayResult (upstream : Except Unit UpstreamResponse) : ProxyResponse :=
  match upstream with
  | .error _ => commFailureResponse
  | .ok resp =>
    if resp.ok then
      if hasJsonContentType resp.contentType then
        match resp.jsonBody with
        | .error _ => commFailureResponse
        | .ok d => ⟨200, .jsonData d⟩
      else ⟨200, .successTrue⟩
    else upstreamFailureResponse resp

/-- With the credential configured, the GET response is the key-independent
relay outcome. -/
lemma handleGET_fst (apiKey : Option String) (h : apiKeyMissing apiKey = false)
    (req : InboundRequest) (upstream : Except Unit UpstreamResponse) :
    (handleGET apiKey req upstream).fst = relayResult upstream := by
  obtain _ | resp := upstream <;> simp [handleGET, relayResult, h]
  rcases hok : resp.ok with _ | _ <;> simp [hok]
  rcases hj : resp.jsonBody with _ | _ <;> simp [hj]

/-- With the credential configured, the POST response is the key-independent
relay outcome (the generic error when the inbound body parse throws). -/
lemma handlePOST_fst (apiKey : Option String) (h : apiKeyMissing apiKey = false)
    (req : InboundRequest) (inBody : Except Unit String)
    (upstream : Except Unit UpstreamResponse) :
    (handlePOST apiKey req inBody upstream).fst =
      match inBody with
      | .error _ => commFailureResponse
      | .ok _ => relayResult upstream := by
  obtain _ | b := inBody
  · simp [handlePOST, h]
  · obtain _ | resp := upstream <;> simp [handlePOST, relayResult, h]
    rcases hok : resp.ok with _ | _ <;> simp [hok]
    rcases hj : resp.jsonBody with _ | _ <;> simp [hj]

/-- With the credential configured, the PATCH response is the key-independent
relay outcome (the generic error when the inbound body parse throws). -/
lemma handlePATCH_fst (apiKey : Option String) (h : apiKeyMissing apiKey = false)
    (req : InboundRequest) (inBody : Except Unit String)
    (upstream : Except Unit UpstreamResponse) :
    (handlePATCH apiKey req inBody upstream).fst =
      match inBody with
      | .error _ => commFailureResponse
      | .ok _ => relayResult upstream := by
  obtain _ | b := inBody
  · simp [handlePATCH, h]
  · obtain _ | resp := upstream <;> simp [handlePATCH, relayResult, h]
    rcases hok : resp.ok with _ | _ <;> simp [hok]
    rcases hj : resp.jsonBody with _ | _ <;> simp [hj]

/-- With the credential configured, the DELETE response is the key-independent
relay outcome. -/
lemma handleDELETE_fst (apiKey : Option String) (h : apiKeyMissing apiKey = false)
    (req : InboundRequest) (upstream : Except Unit UpstreamResponse) :
    (handleDELETE apiKey req upstream).fst = deleteRelayResult upstream := by
  obtain _ | resp := upstream <;> simp [handleDELETE, deleteRelayResult, h]
  rcases hok : resp.ok with _ | _ <;> simp [hok]
  rcases hct : hasJsonContentType resp.contentType with _ | _ <;> simp [hct]
  rcases hj : resp.jsonBody with _ | _ <;> simp [hj]

/-- Erase the only key-dependent field of an outbound request. -/
def scrubAuth (o : OutboundRequest) : OutboundRequest := { o with authHeader := "" }

/-- C10: with the credential configured, the proxy's behaviour is independent
of the credential's value: for any two configured key values and any fixed
upstream behaviour, the four handlers return identical responses, the outbound
requests agree on every field except the Authorization header, and that header
is exactly "Bearer " followed by the key — so the key reaches only the
Authorization header and never any response body. -/
theorem credential_noninterference
    (k1 k2 : Option String)
    (h1 : apiKeyMissing k1 = false) (h2 : apiKeyMissing k2 = false)
    (req : InboundRequest) (inBody : Except Unit String) (b : String)
    (upstream : Except Unit UpstreamResponse) :
    (handleGET k1 req upstream).fst = (handleGET k2 req upstream).fst ∧
    (handlePOST k1 req inBody upstream).fst = (handlePOST k2 req inBody upstream).fst ∧
    (handlePATCH k1 req inBody upstream).fst = (handlePATCH k2 req inBody upstream).fst ∧
    (handleDELETE k1 req upstream).fst = (handleDELETE k2 req upstream).fst ∧
    ((handleGET k1 req upstream).snd.map scrubAuth) =
      ((handleGET k2 req upstream).snd.map scrubAuth) ∧
    ((handlePOST k1 req inBody upstream).snd.map scrubAuth) =
      ((handlePOST k2 req inBody upstream).snd.map scrubAuth) ∧
    ((handlePATCH k1 req inBody upstream).snd.map scrubAuth) =
      ((handlePATCH k2 req inBody upstream).snd.map scrubAuth) ∧
    ((handleDELETE k1 req upstream).snd.map scrubAuth) =
      ((handleDELETE k2 req upstream).snd.map scrubAuth) ∧
    ((handleGET k1 req upstream).snd.map OutboundRequest.authHeader) =
      some ("Bearer " ++ k1.getD "") ∧
    ((handlePOST k1 req (.ok b) upstream).snd.map OutboundRequest.authHeader) =
      some ("Bearer " ++ k1.getD "") ∧
    ((handlePATCH k1 req (.ok b) upstream).snd.map OutboundRequest.authHeader) =
      some ("Bearer " ++ k1.getD "") ∧
    ((handleDELETE k1 req upstream).snd.map OutboundRequest.authHeader) =
      some ("Bearer " ++ k1.getD "") := by
  refine ⟨?_, ?_, ?_, ?_, ?_, ?_, ?_, ?_, ?_, ?_, ?_, ?_⟩
  · rw [handleGET_fst k1 h1 req upstream, handleGET_fst k2 h2 req upstream]
  · rw [handlePOST_fst k1 h1 req inBody upstream, handlePOST_fst k2 h2 req inBody upstream]
  · rw [handlePATCH_fst k1 h1 req inBody upstream, handlePATCH_fst k2 h2 req inBody upstream]
  · rw [handleDELETE_fst k1 h1 req upstream, handleDELETE_fst k2 h2 req upstream]
  · rw [handleGET_snd k1 h1 req upstream, handleGET_snd k2 h2 req upstream]
    simp [scrubAuth]
  · obtain _ | b0 := inBody
    · simp [handlePOST, h1, h2]
    · rw [handlePOST_snd k1 h1 req b0 upstream, handlePOST_snd k2 h2 req b0 upstream]
      simp [scrubAuth]
  · obtain _ | b0 := inBody
    · simp [handlePATCH, h1, h2]
    · rw [handlePATCH_snd k1 h1 req b0 upstream, handlePATCH_snd k2 h2 req b0 upstream]
      simp [scrubAuth]
  · rw [handleDELETE_snd k1 h1 req upstream, handleDELETE_snd k2 h2 req upstream]
    simp [scrubAuth]
  · rw [handleGET_snd k1 h1 req upstream]; rfl
  · rw [handlePOST_snd k1 h1 req b upstream]; rfl
  · rw [handlePATCH_snd k1 h1 req b upstream]; rfl
  · rw [handleDELETE_snd k1 h1 req upstream]; rfl

theorem credential_noninterference_witness :
    (handleGET (some "secretA") ⟨["foo"], "x=1"⟩ (.error ())).fst =
      (handleGET (some "secretB") ⟨["foo"], "x=1"⟩ (.error ())).fst ∧
    (handlePOST (some "secretA") ⟨["foo"], "x=1"⟩ (.ok "b") (.error ())).fst =
      (handlePOST (some "secretB") ⟨["foo"], "x=1"⟩ (.ok "b") (.error ())).fst ∧
    (handlePATCH (some "secretA") ⟨["foo"], "x=1"⟩ (.ok "b") (.error ())).fst =
      (handlePATCH (some "secretB") ⟨["foo"], "x=1"⟩ (.ok "b") (.error ())).fst ∧
    (handleDELETE (some "secretA") ⟨["foo"], "x=1"⟩ (.error ())).fst =
      (handleDELETE (some "secretB") ⟨["foo"], "x=1"⟩ (.error ())).fst ∧
    ((handleGET (some "secretA") ⟨["foo"], "x=1"⟩ (.error ())).snd.map scrubAuth) =
      ((handleGET (some "secretB") ⟨["foo"], "x=1"⟩ (.error ())).snd.map scrubAuth) ∧
    ((handlePOST (some "secretA") ⟨["foo"], "x=1"⟩ (.ok "b") (.error ())).snd.map scrubAuth) =
      ((handlePOST (some "secretB") ⟨["foo"], "x=1"⟩ (.ok "b") (.error ())).snd.map scrubAuth) ∧
    ((handlePATCH (some "secretA") ⟨["foo"], "x=1"⟩ (.ok "b") (.error ())).snd.map scrubAuth) =
      ((handlePATCH (some "secretB") ⟨["foo"], "x=1"⟩ (.ok "b") (.error ())).snd.map scrubAuth) ∧
    ((handleDELETE (some "secretA") ⟨["foo"], "x=1"⟩ (.error ())).snd.map scrubAuth) =
      ((handleDELETE (some "secretB") ⟨["foo"], "x=1"⟩ (.error ())).snd.map scrubAuth) ∧
    ((handleGET (some "secretA") ⟨["foo"], "x=1"⟩ (.error ())).snd.map
      OutboundRequest.authHeader) = some ("Bearer " ++ (some "secretA").getD "") ∧
    ((handlePOST (some "secretA") ⟨["foo"], "x=1"⟩ (.ok "b") (.error ())).snd.map
      OutboundRequest.authHeader) = some ("Bearer " ++ (some "secretA").getD "") ∧
    ((handlePATCH (some "secretA") ⟨["foo"], "x=1"⟩ (.ok "b") (.error ())).snd.map
      OutboundRequest.authHeader) = some ("Bearer " ++ (some "secretA").getD "") ∧
    ((handleDELETE (some "secretA") ⟨["foo"], "x=1"⟩ (.error ())).snd.map
      OutboundRequest.authHeader) = some ("Bearer " ++ (some "secretA").getD "") :=
  credential_noninterference (some "secretA") (some "secretB") (by decide) (by decide)
    ⟨["foo"], "x=1"⟩ (.ok "b") "b" (.error ())

/-- C2: for every fetched chart series with at least two samples (and a
positive first price, as every actual price is), the displayed percentage
change equals (last - first) / first * 100 rounded to 2 decimal places, and
the displayed value carries a "+" prefix exactly when the change is
non-negative. -/
theorem percentage_change_display
    (data : List PricePoint) (pf pl : PricePoint)
    (hlen : 2 ≤ data.length) (hf : data.head? = some pf) (hl : data.getLast? = some pl)
    (hpos : 0 < pf.price) :
    (displayedChange data).2 = round2 ((pl.price - pf.price) / pf.price * 100) ∧
    ((displayedChange data).1 = "+" ↔ 0 ≤ pl.price - pf.price) ∧
    ((displayedChange data).1 = "+" ↔ 0 ≤ (pl.price - pf.price) / pf.price * 100) := by
  have hnot : ¬ data.length < 2 := by omega
  have hcc : calculateChange data =
      (pl.price - pf.price, (pl.price - pf.price) / pf.price * 100) := by
    simp [calculateChange, hnot, hf, hl]
  refine ⟨?_, ?_, ?_⟩
  · simp [displayedChange, hcc]
  · have hdc : (displayedChange data).1 = if 0 ≤ pl.price - pf.price then "+" else "" := by
      simp [displayedChange, hcc, signIndicator]
    rw [hdc]
    split_ifs with h0
    · exact iff_of_true rfl h0
    · exact iff_of_false (by decide) h0
  · have key : 0 ≤ pl.price - pf.price ↔ 0 ≤ (pl.price - pf.price) / pf.price * 100 := by
      constructor
      · intro ha
        have hd := div_nonneg ha hpos.le
        nlinarith
      · intro hq
        by_contra hna
        push_neg at hna
        have hd := div_neg_of_neg_of_pos hna hpos
        nlinarith
    have hdc : (displayedChange data).1 = if 0 ≤ pl.price - pf.price then "+" else "" := by
      simp [displayedChange, hcc, signIndicator]
    rw [hdc]
    split_ifs with h0
    · exact iff_of_true rfl (key.mp h0)
    · exact iff_of_false (by decide) fun hq => h0 (key.mpr hq)

theorem percentage_change_display_witness :
    (displayedChange [⟨0, 100⟩, ⟨1, 110⟩]).2 =
      round2 (((110 : ℚ) - 100) / 100 * 100) ∧
    ((displayedChange [⟨0, 100⟩, ⟨1, 110⟩]).1 = "+" ↔ 0 ≤ (110 : ℚ) - 100) ∧
    ((displayedChange [⟨0, 100⟩, ⟨1, 110⟩]).1 = "+" ↔
      0 ≤ ((110 : ℚ) - 100) / 100 * 100) :=
  percentage_change_display [⟨0, 100⟩, ⟨1, 110⟩] ⟨0, 100⟩ ⟨1, 110⟩
    (by decide) rfl rfl (by norm_num)

/-- C9: for every chart series with fewer than two samples, calculateChange
returns zero amount and zero percentage via its guard (no element access), and
the header then displays a "+" prefix and a zero percentage. -/
theorem short_series_change_is_zero
    (data : List PricePoint) (h : data.length < 2) :
    calculateChange data = (0, 0) ∧
    (displayedChange data).1 = "+" ∧ (displayedChange data).2 = 0 := by
  have hcc : calculateChange data = (0, 0) := by simp [calculateChange, h]
  refine ⟨hcc, ?_, ?_⟩ <;> simp [displayedChange, hcc, signIndicator, round2]

theorem short_series_change_is_zero_witness :
    calculateChange [] = (0, 0) ∧
    (displayedChange []).1 = "+" ∧ (displayedChange []).2 = 0 :=
  short_series_change_is_zero [] (by decide)

/-- C4 counterexample: after a failed fetch the widget does not render the
chart at all: in the failure state (error flag set, mock series stored) the
chart area renders the error/retry branch, so no series of synthetic points is
rendered. -/
theorem chart_failure_renders_retry_not_chart :
    ¬ ∃ s, renderChart (fetchFailureState 0 (fun _ => 0)) = ChartView.chart s := by
  rintro ⟨s, hs⟩
  simp [renderChart, fetchFailureState] at hs

/-- C4 amended: whenever the historical-data fetch fails, the widget stores a
synthetic placeholder series of exactly 20 points in its state, but the chart
area renders the error/retry view rather than the chart, so the stored
placeholder series is never displayed. -/
theorem chart_failure_stores_20_mock_points (now : ℤ) (randoms : Fin 20 → ℚ) :
    (fetchFailureState now randoms).chartData.length = 20 ∧
    renderChart (fetchFailureState now randoms) = ChartView.errorRetry := by
  constructor
  · show (mockData now randoms).length = 20
    rw [mockData, List.length_map, List.length_finRange]
  · simp [renderChart, fetchFailureState]

/-- Lower bound of a min fold by its initial value. -/
lemma foldl_min_le_init (l : List ℚ) (a : ℚ) : l.foldl min a ≤ a := by
  induction l generalizing a with
  | nil => simp
  | cons x xs ih => exact le_trans (ih (min a x)) (min_le_left a x)

/-- A min fold is a lower bound of the list members. -/
lemma foldl_min_le_mem (l : List ℚ) (a x : ℚ) (hx : x ∈ l) : l.foldl min a ≤ x := by
  induction l generalizing a with
  | nil => cases hx
  | cons y ys ih =>
    rcases List.mem_cons.mp hx with rfl | h
    · exact le_trans (foldl_min_le_init ys (min a x)) (min_le_right a x)
    · exact ih (min a y) h

/-- Upper bound of a max fold by its initial value. -/
lemma init_le_foldl_max (l : List ℚ) (a : ℚ) : a ≤ l.foldl max a := by
  induction l generalizing a with
  | nil => simp
  | cons x xs ih => exact le_trans (le_max_left a x) (ih (max a x))

/-- A max fold is an upper bound of the list members. -/
lemma mem_le_foldl_max (l : List ℚ) (a x : ℚ) (hx : x ∈ l) : x ≤ l.foldl max a := by
  induction l generalizing a with
  | nil => cases hx
  | cons y ys ih =>
    rcases List.mem_cons.mp hx with rfl | h
    · exact le_trans (le_max_right a x) (init_le_foldl_max ys (max a x))
    · exact ih (max a y) h

/-- minPrice is a lower bound of the prices. -/
lemma minPrice_le (l : List ℚ) (x : ℚ) (hx : x ∈ l) : minPrice l ≤ x := by
  obtain _ | ⟨p, ps⟩ := l
  · cases hx
  · rcases List.mem_cons.mp hx with rfl | h
    · exact foldl_min_le_init ps x
    · exact foldl_min_le_mem ps p x h

/-- maxPrice is an upper bound of the prices. -/
lemma le_maxPrice (l : List ℚ) (x : ℚ) (hx : x ∈ l) : x ≤ maxPrice l := by
  obtain _ | ⟨p, ps⟩ := l
  · cases hx
  · rcases List.mem_cons.mp hx with rfl | h
    · exact init_le_foldl_max ps x
    · exact mem_le_foldl_max ps p x h

/-- C8: for every non-empty series whose observed maximum price equals the
observed minimum price, the `priceRange` guard replaces the zero range by 1,
so the vertical mapping never divides by zero, and every computed y-coordinate
equals height - padding, which lies within the drawing area. -/
theorem zero_range_vertical_guard
    (data : List PricePoint) (hne : data ≠ [])
    (heq : maxPrice (data.map PricePoint.price) = minPrice (data.map PricePoint.price)) :
    priceRange (data.map PricePoint.price) = 1 ∧
    pathYCoords data = List.replicate data.length (chartHeight - chartPadding) ∧
    chartPadding ≤ chartHeight - chartPadding := by
  have hr : maxPrice (data.map PricePoint.price) - minPrice (data.map PricePoint.price) = 0 := by
    rw [heq]; ring
  have hrange : priceRange (data.map PricePoint.price) = 1 := by
    simp [priceRange, hr]
  refine ⟨hrange, ?_, by norm_num [chartPadding, chartHeight]⟩
  have hall : ∀ p ∈ data,
      yCoord (minPrice (data.map PricePoint.price)) (priceRange (data.map PricePoint.price))
        p.price = chartHeight - chartPadding := by
    intro p hp
    have hmem : p.price ∈ data.map PricePoint.price := List.mem_map_of_mem _ hp
    have hle : minPrice (data.map PricePoint.price) ≤ p.price := minPrice_le _ _ hmem
    have hge : p.price ≤ minPrice (data.map PricePoint.price) := heq ▸ le_maxPrice _ _ hmem
    have hpe : p.price = minPrice (data.map PricePoint.price) := le_antisymm hge hle
    simp [yCoord, hpe]
  have hlen : data.length ≠ 0 := fun h0 => hne (List.length_eq_zero.mp h0)
  calc pathYCoords data
      = data.map fun p =>
          yCoord (minPrice (data.map PricePoint.price))
            (priceRange (data.map PricePoint.price)) p.price := by
        simp [pathYCoords, hlen]
    _ = data.map fun _ => chartHeight - chartPadding := List.map_congr_left hall
    _ = List.replicate data.length (chartHeight - chartPadding) := by
        simp [List.map_const]

theorem zero_range_vertical_guard_witness :
    priceRange ([⟨0, 5⟩, ⟨1, 5⟩].map PricePoint.price) = 1 ∧
    pathYCoords [⟨0, 5⟩, ⟨1, 5⟩] =
      List.replicate ([(⟨0, 5⟩ : PricePoint), ⟨1, 5⟩].length) (chartHeight - chartPadding) ∧
    chartPadding ≤ chartHeight - chartPadding :=
  zero_range_vertical_guard [⟨0, 5⟩, ⟨1, 5⟩] (by decide) (by decide)

/-- C3: for every year key in the fixed tables and every current BTC price
(with the code's 70000 fallback for a missing or zero fetched price), the
computed bitcoin amount equals passPrice / historicalBtcPriceForYear and the
gain/loss equals btcAmount * currentPrice - passPrice, exactly; for year 2018
(pass price 999, historical BTC price 6347) the amount is within 10⁻⁶ of
0.157397. -/
theorem whatif_formulas (y : IkonYear) (p : Option ℚ) :
    (calculateWhatIf y p).passPrice = ikonPrices y ∧
    (calculateWhatIf y p).historicalBtcPrice = btcHistoricalPrices y ∧
    (calculateWhatIf y p).btcAmount = ikonPrices y / btcHistoricalPrices y ∧
    (calculateWhatIf y p).gainLoss =
      (calculateWhatIf y p).btcAmount * currentBtcPriceOf p - ikonPrices y ∧
    |ikonPrices IkonYear.y2018 / btcHistoricalPrices IkonYear.y2018 - 157397 / 1000000|
      < 1 / 1000000 := by
  refine ⟨rfl, rfl, rfl, rfl, ?_⟩
  rw [show ikonPrices IkonYear.y2018 = 999 from rfl,
    show btcHistoricalPrices IkonYear.y2018 = 6347 from rfl, abs_sub_lt_iff]
  norm_num

end TahoeBtc
